import Mathlib

/-!
Verification development for the reddit-topic-summarizer repository
(`bertopic_api.py`, `openai_representation.py`).

The pipeline's pure text processing is embedded directly; the external
collaborators (sentence-transformer models, the BERTopic fit, the remote
chat/embedding service) are abstracted as an `Oracle` of fallible calls,
where `Except`/`Option` failure results model a Python exception being
raised by the call.  Python strings are modelled as Lean `String`s with
explicit helpers matching CPython semantics (`str.strip`, slicing).
-/

namespace RedditTopic

/-! ## Python string helpers -/

/-- Code points for which CPython's `str.isspace` (and hence `str.strip`)
treats the character as whitespace. -/
def pythonWhitespace : List Nat :=
  [9, 10, 11, 12, 13, 28, 29, 30, 31, 32, 133, 160, 5760,
   8192, 8193, 8194, 8195, 8196, 8197, 8198, 8199, 8200, 8201, 8202,
   8232, 8233, 8239, 8287, 12288]

/-- Whether CPython's `str.strip` removes this character. -/
def pythonIsSpace (c : Char) : Bool :=
  pythonWhitespace.contains c.toNat

/-- Model of Python `s.strip()`: drop leading and trailing whitespace. -/
def pyStrip (s : String) : String :=
  String.mk (((s.data.dropWhile pythonIsSpace).reverse.dropWhile pythonIsSpace).reverse)

/-- Model of Python slicing `s[:n]` (a prefix of at most `n` characters). -/
def strTake (s : String) (n : Nat) : String :=
  String.mk (s.data.take n)

/-! ## Text Normalizer (`bertopic_api.py` lines 21-101) -/

/-- Source: `MIN_LENGTH = 12  # Below this BERTopic breaks`. -/
def MIN_LENGTH : Nat := 12

/-- Source: `MAX_LENGTH = 3000  # Prevent oversized OpenAI prompts`. -/
def MAX_LENGTH : Nat := 3000

/-- Source: `re.sub(r"[\x00-\x1F\x7F]", " ", text)` — every ASCII control
character is replaced by a single space. -/
def replaceControls (s : String) : String :=
  String.mk (s.data.map (fun c => if c.toNat ≤ 31 || c.toNat == 127 then ' ' else c))

/-- Source: `normalize_text` — replace control characters, then `strip()`.
The `isinstance` guard for non-strings is outside this typed model, where
every input is already a string. -/
def normalize_text (text : String) : String :=
  pyStrip (replaceControls text)

/-- Source: `pad_short_text` — texts shorter than `MIN_LENGTH` get
`text + " " + text[:needed]` appended, where `needed = MIN_LENGTH - len(text)`. -/
def pad_short_text (text : String) : String :=
  if MIN_LENGTH ≤ text.length then text
  else if text.length = 0 then ""
  else text ++ " " ++ strTake text (MIN_LENGTH - text.length)

/-- Source: `truncate_long_text` — cap the document at `MAX_LENGTH` characters. -/
def truncate_long_text (text : String) : String :=
  if text.length ≤ MAX_LENGTH then text
  else strTake text MAX_LENGTH

/-- One iteration of the cleaning loop in `clean_comments`: skip falsy
inputs, normalize, skip documents that became empty, then pad and truncate.
`none` models `continue`. -/
def cleanOne (c : String) : Option String :=
  if c = "" then none
  else
    let text := normalize_text c
    if pyStrip text = "" then none
    else some (truncate_long_text (pad_short_text text))

/-- The `while len(cleaned) < 3` loop appends `f"placeholder document {len(cleaned)}"`,
so starting from `n` surviving documents the indices `n, n+1, ...` up to `2` are used. -/
def placeholderDocs (n : Nat) : List String :=
  (List.range (3 - n)).map (fun i => "placeholder document " ++ toString (n + i))

/-- Source: `clean_comments` — clean every comment, then top up to at least
three documents with numbered placeholders. -/
def clean_comments (comments : List String) : List String :=
  let cleaned := comments.filterMap cleanOne
  cleaned ++ placeholderDocs cleaned.length

/-! ## JSON values and stream events

The generator in `analyze_reddit_post` yields `json.dumps(...)` of Python
dicts; we model each yielded block as a `JVal` object whose field list
keeps the dict-literal order of the source. -/

inductive JVal where
  | null
  | bool (b : Bool)
  | num (n : Int)
  | rat (q : Rat)
  | str (s : String)
  | arr (xs : List JVal)
  | obj (fields : List (String × JVal))

/-- Look a key up in an object's field list (first match wins, like a dict). -/
def jGet : List (String × JVal) → String → Option JVal
  | [], _ => none
  | (k, v) :: rest, key => if k = key then some v else jGet rest key

/-- The `status` field of an event, when it is a string. -/
def statusOf (e : JVal) : Option String :=
  match e with
  | .obj fs =>
    match jGet fs "status" with
    | some (.str s) => some s
    | _ => none
  | _ => none

/-- The numeric `progress` field of a progress event. -/
def progressOf (e : JVal) : Option Int :=
  match e with
  | .obj fs =>
    match jGet fs "status", jGet fs "progress" with
    | some (.str "progress"), some (.num n) => some n
    | _, _ => none
  | _ => none

/-- Progress percentages of the progress events of a trace, in order. -/
def progressVals (es : List JVal) : List Int :=
  es.filterMap progressOf

/-- An event is terminal when its status is `complete` or `error`. -/
def isTerminalE (e : JVal) : Bool :=
  statusOf e == some "complete" || statusOf e == some "error"

/-- A trace ends in its unique terminal event: every earlier event is
non-terminal and the last one is terminal. -/
def oneTerminalAtEnd : List JVal → Bool
  | [] => false
  | [e] => isTerminalE e
  | e :: rest => !isTerminalE e && oneTerminalAtEnd rest

/-- Keys of a JSON object, in order. -/
def objKeysOf : JVal → List String
  | .obj fs => fs.map Prod.fst
  | _ => []

/-- Source: `send_progress_update(message, progress=None)` — one
`{'status': 'progress', 'message': ..., 'progress': ...}` block. -/
def send_progress_update (message : String) (progress : Option Int) : JVal :=
  .obj [("status", .str "progress"), ("message", .str message),
        ("progress", .num (progress.getD 0))]

/-- The terminal error block yielded by the generator's `except` clause:
`{'status': 'error', 'error': str(e), 'traceback': error_trace}`. -/
def errorEvent (msg tb : String) : JVal :=
  .obj [("status", .str "error"), ("error", .str msg), ("traceback", .str tb)]

/-! ## Topic statistics extraction (`generate_analysis` lines 417-447) -/

/-- One entry of the `topics_list` built by the generator. -/
structure TopicEntry where
  id : Int
  label : String
  words : List String
  percentage : Rat
deriving DecidableEq

/-- One row of `topic_model.get_topic_info()`: the `Topic` id and the
`Representation` column (`none` models a non-list value there). -/
structure TopicInfoRow where
  topic : Int
  representation : Option (List String)
deriving DecidableEq

/-- Round a rational to the nearest integer, ties to even — CPython's
`round` tie-breaking rule (the source rounds exact binary floats; this
model rounds the exact rational value). -/
def roundHalfEven (q : Rat) : Int :=
  let f : Int := q.num.fdiv q.den
  let twice : Int := 2 * (q.num - f * q.den)
  if twice < (q.den : Int) then f
  else if (q.den : Int) < twice then f + 1
  else if f % 2 = 0 then f else f + 1

/-- Model of Python `round(q, 2)` on the exact rational value
(`q * 100` is computed as `q.num * 100 / q.den` so the whole function
stays kernel-computable). -/
def round2 (q : Rat) : Rat :=
  Rat.divInt (roundHalfEven (Rat.divInt (q.num * 100) q.den)) 100

/-- The equal-distribution fallback of the percentage computation:
`round(100 / total_topics, 2) if total_topics > 0 else 0` with
`total_topics = len(topic_info) - 1`. -/
def equalDist (numRows : Nat) : Rat :=
  if 2 ≤ numRows then round2 (mkRat 100 (numRows - 1)) else 0

/-- The loop over `topic_info.iterrows()`: skip the outlier row (id -1),
take the first five representation words, and compute the percentage from
the assignment array (`ZeroDivisionError` on an empty array is caught and
falls back to the equal distribution). -/
def buildTopicsList (rows : List TopicInfoRow) (assignments : List Int) : List TopicEntry :=
  rows.filterMap (fun row =>
    if row.topic = -1 then none
    else
      let words := match row.representation with
        | some ws => ws.take 5
        | none => []
      let percentage : Rat :=
        if assignments.length = 0 then equalDist rows.length
        else round2 (mkRat
          ((assignments.filter (fun t => t = row.topic)).length * 100)
          assignments.length)
      some { id := row.topic
             label := if words.isEmpty then "Topic " ++ toString row.topic
                      else String.intercalate ", " words
             words := words
             percentage := percentage })

/-- JSON form of one `topics_list` entry (dict literal lines 440-445). -/
def topicEntryJVal (t : TopicEntry) : JVal :=
  .obj [("id", .num t.id), ("label", .str t.label),
        ("words", .arr (t.words.map .str)), ("percentage", .rat t.percentage)]

/-- The terminal success block (dict literal lines 458-464). -/
def resultJVal (topicsList : List TopicEntry) (modelUsed : String)
    (summary : Option String) (totalComments : Nat) : JVal :=
  .obj [("status", .str "complete"),
        ("topics", .arr (topicsList.map topicEntryJVal)),
        ("model_used", .str modelUsed),
        ("summary", match summary with | some s => .str s | none => .null),
        ("total_comments", .num totalComments)]

/-! ## Topic-model snapshots and the external-call oracle -/

/-- A topic-model snapshot.  `topicsAttr` models the `topics_` attribute
(`none` = attribute missing or `None`); `topicInfo` models what calling
`get_topic_info()` on this snapshot does (`Except.error` = it raises);
`tag` distinguishes otherwise-equal snapshots. -/
structure Model where
  topicsAttr : Option (List Int)
  topicInfo : Except String (List TopicInfoRow)
  tag : Nat

/-- Behaviour of the external collaborators during one request.  A
`Except.error`/`none` result models the corresponding Python call raising.
`openaiUpdate m docs` stands for mutating a deep copy of `m` through
`update_topics` with the OpenAI representation (its result is the mutated
copy), and likewise `hfUpdate` for the KeyBERTInspired representation;
`chat` is one `openai.ChatCompletion.create` round-trip keyed only by the
prompt, since the credential travels through the process-global
`openai.api_key`. -/
structure Oracle where
  createModel : Except String Model
  encode : List String → Except String Nat
  fitTransform : List String → Nat → Except String (List Int)
  openaiUpdate : Model → List String → Option Model
  hfUpdate : Model → List String → Option Model
  chat : String → Option String
  traceback : String

/-- Python truthiness of an optional string (`None` and `""` are falsy). -/
def truthyStr : Option String → Bool
  | none => false
  | some s => !(s == "")

/-! ## Summary Generator (`generate_overall_summary`, lines 254-298) -/

/-- One bullet of the topics block:
`f"- {topic['label']} ({topic['percentage']}% of comments): {', '.join(topic['words'])}"`. -/
def fmtTopic (t : TopicEntry) : String :=
  "- " ++ t.label ++ " (" ++ toString t.percentage ++ "% of comments): " ++
    String.intercalate ", " t.words

/-- The fixed prompt template of `generate_overall_summary`. -/
def summaryPrompt (postTitle topicsText : String) : String :=
  "Please provide a concise summary of the following Reddit post and its main discussion topics.\n\nPost Title: " ++
    postTitle ++ "\n\nMain Discussion Topics:\n" ++ topicsText ++ "\n\nSummary:"

/-- The log line `logger.debug(f"Received OpenAI API key: {'Provided' if openai_api_key else 'Not Provided'}")` —
the only logger call in the summary path that looks at the credential. -/
def summaryLog (openai_api_key : Option String) : String :=
  "Received OpenAI API key: " ++
    (if truthyStr openai_api_key then "Provided" else "Not Provided")

/-- Source: `generate_overall_summary(topics, openai_api_key, post_title)`.
Returns `None` without calling the service when the key is falsy, builds
the prompt from `topics[:5]`, and the surrounding `try` turns any failure
into `None`. -/
def generate_overall_summary (chat : String → Option String) (topics : List TopicEntry)
    (openai_api_key : Option String) (post_title : String) : Option String :=
  if truthyStr openai_api_key = false then none
  else
    let topicsText := String.intercalate "\n" ((topics.take 5).map fmtTopic)
    let prompt := summaryPrompt post_title topicsText
    match chat prompt with
    | none => none
    | some content => some (pyStrip content)

/-! ## Representation Enhancer (`update_topics_with_openai` lines 199-223,
the active `update_topics_with_huggingface` lines 226-249) -/

/-- Source: the second (shadowing) `update_topics_with_huggingface` — deep
copy, KeyBERTInspired `update_topics`; on failure return the caller's model
with the baseline strategy name. -/
def update_topics_with_huggingface (o : Oracle) (topic_model : Model)
    (comments : List String) : Model × String :=
  match o.hfUpdate topic_model comments with
  | some updated => (updated, "Hugging Face (KeyBERT)")
  | none => (topic_model, "Basic BERTopic (no enhancement)")

/-- Source: `update_topics_with_openai`.  Inside its `try`: the comments
are re-cleaned, `StableOpenAIRepresentation.__init__` stores the credential
in the process-global `openai.api_key` (third component), and
`update_topics` runs on a deep copy; the `except` clause falls back to the
Hugging Face tier with the already-cleaned comments.  Note the global key
is set before `update_topics` can fail, so it stays set on every path. -/
def update_topics_with_openai (o : Oracle) (topic_model : Model)
    (comments : List String) (openai_api_key : String) (_glob : Option String) :
    Model × String × Option String :=
  let cleaned := clean_comments comments
  let glob2 : Option String := some openai_api_key
  match o.openaiUpdate topic_model cleaned with
  | some updated => (updated, "OpenAI", glob2)
  | none =>
    let r := update_topics_with_huggingface o topic_model cleaned
    (r.1, r.2, glob2)

/-! ## Progress/Result Stream (`generate_analysis`, lines 364-475) -/

/-- Everything observable about one run of the `generate_analysis`
generator: the yielded stream blocks, the credential-related log lines, the
document lists handed to `embedding_model.encode` and
`topic_model.fit_transform` (`none` = the call was never reached), and the
final value of the process-global `openai.api_key`. -/
structure RunTrace where
  events : List JVal
  logs : List String
  encodedDocs : Option (List String)
  fitDocs : Option (List String)
  finalGlob : Option String

/-- Tail of the generator from `yield send_progress_update('Finalizing results...', 90)`
on: pick the topics array (`topics_` attribute if present, else the
`fit_transform` result — in this typed model that array always passes the
dtype/ndim validation), fetch `get_topic_info` (its raising jumps to the
`except` clause), build `topics_list`, optionally generate the summary, and
yield the final progress and result blocks. -/
def finishRun (o : Oracle) (comments : List String) (key : Option String)
    (title : String) (e5 : List JVal) (model1 : Model) (modelUsed : String)
    (glob1 : Option String) (fitTopics : List Int) : RunTrace :=
  let e6 := e5 ++ [send_progress_update "Finalizing results..." (some 90)]
  let topicsArray := match model1.topicsAttr with
    | some arr => arr
    | none => fitTopics
  match model1.topicInfo with
  | .error msg =>
    ⟨e6 ++ [errorEvent msg o.traceback], [], some comments, some comments, glob1⟩
  | .ok rows =>
    let topicsList := buildTopicsList rows topicsArray
    if truthyStr key then
      let e7 := e6 ++ [send_progress_update "Generating summary..." (some 95)]
      let summary := generate_overall_summary o.chat topicsList key title
      ⟨e7 ++ [send_progress_update "Complete" (some 100),
              resultJVal topicsList modelUsed summary comments.length],
       [summaryLog key], some comments, some comments, glob1⟩
    else
      ⟨e6 ++ [send_progress_update "Complete" (some 100),
              resultJVal topicsList modelUsed none comments.length],
       [], some comments, some comments, glob1⟩

/-- Source: the `generate_analysis` generator.  Progress blocks are yielded
between stages; a raising stage jumps to the single `except` clause, which
yields exactly one error block and ends the stream.  The raw `comments`
list — not `clean_comments(comments)` — is what reaches `encode` and
`fit_transform`. -/
def generateAnalysis (o : Oracle) (comments : List String) (key : Option String)
    (title : String) (glob0 : Option String) : RunTrace :=
  let e1 := [send_progress_update "Loading models..." (some 10)]
  match o.createModel with
  | .error msg => ⟨e1 ++ [errorEvent msg o.traceback], [], none, none, glob0⟩
  | .ok model0 =>
  let e2 := e1 ++ [send_progress_update "Embedding comments..." (some 30)]
  match o.encode comments with
  | .error msg => ⟨e2 ++ [errorEvent msg o.traceback], [], some comments, none, glob0⟩
  | .ok emb =>
  let e3 := e2 ++ [send_progress_update "Analyzing topics..." (some 70)]
  match o.fitTransform comments emb with
  | .error msg =>
    ⟨e3 ++ [errorEvent msg o.traceback], [], some comments, some comments, glob0⟩
  | .ok fitTopics =>
  let e4 := e3 ++ [send_progress_update "Processing topic information..." (some 80)]
  if truthyStr key then
    let e5 := e4 ++ [send_progress_update "Enhancing with OpenAI..." (some 85)]
    let r := update_topics_with_openai o model0 comments (key.getD "") glob0
    finishRun o comments key title e5 r.1 r.2.1 r.2.2 fitTopics
  else
    let e5 := e4 ++ [send_progress_update "Enhancing with Hugging Face..." (some 85)]
    let r := update_topics_with_huggingface o model0 comments
    finishRun o comments key title e5 r.1 r.2 glob0 fitTopics

/-! ## Request handling (`analyze_reddit_post`, lines 324-492) -/

/-- Decoded request body; `none` fields model absent JSON keys. -/
structure RequestData where
  comments : Option (List String)
  openai_api_key : Option String
  post_title : Option String

/-- Either an immediate (non-streaming) response or the event stream. -/
inductive HttpResponse where
  | immediate (status : Nat) (body : JVal)
  | stream (events : List JVal)

/-- Source: the POST branch of `analyze_reddit_post`.  A falsy
`request.get_json()` result (modelled by `none`) and a missing or empty
`comments` list are rejected with a 400 error body before the generator is
ever created; otherwise the response streams `generate_analysis()`. -/
def analyze_reddit_post (o : Oracle) (glob0 : Option String)
    (data : Option RequestData) : HttpResponse :=
  match data with
  | none =>
    .immediate 400 (.obj [("status", .str "error"),
                          ("error", .str "No JSON data received")])
  | some d =>
    let comments := d.comments.getD []
    if comments.isEmpty then
      .immediate 400 (.obj [("status", .str "error"),
                            ("error", .str "No comments to analyze")])
    else
      .stream (generateAnalysis o comments d.openai_api_key
        (d.post_title.getD "Reddit Post") glob0).events

/-! ## Concrete instances used by witnesses and counterexamples -/

/-- A minimal topic-model snapshot. -/
def mEx : Model := ⟨none, .ok [], 0⟩

/-- A snapshot whose `get_topic_info` returns one real topic. -/
def mTopics : Model := ⟨none, .ok [⟨0, some ["alpha", "beta"]⟩], 1⟩

/-- An oracle whose enhancement tiers and chat service all fail but whose
modeling stages succeed. -/
def oFail : Oracle :=
  ⟨.ok mEx, fun _ => .ok 0, fun _ _ => .ok [], fun _ _ => none,
   fun _ _ => none, fun _ => none, "tb"⟩

/-- An oracle for a fully successful run with one extracted topic,
enhancement falling back to the baseline tier. -/
def oRun : Oracle :=
  ⟨.ok mTopics, fun _ => .ok 0, fun _ _ => .ok [0, 0, 0], fun _ _ => none,
   fun _ _ => none, fun _ => none, "tb"⟩


/-- What the terminal success payload actually looks like: exactly the five
dict keys of the source's result literal, a `resultJVal` with the request's
comment count, a strategy name from the three tiers, and topic entries with
exactly the four keys `id`, `label`, `words`, `percentage`. -/
def completePayloadOK (ncomments : Nat) (e : JVal) : Prop :=
  objKeysOf e = ["status", "topics", "model_used", "summary", "total_comments"] ∧
  ∃ ts : List TopicEntry, ∃ mu : String, ∃ s : Option String,
    e = resultJVal ts mu s ncomments ∧
    (mu = "OpenAI" ∨ mu = "Hugging Face (KeyBERT)" ∨
      mu = "Basic BERTopic (no enhancement)") ∧
    ∀ tj ∈ ts.map topicEntryJVal, objKeysOf tj = ["id", "label", "words", "percentage"]


/-! ## Helper lemmas -/

lemma string_mk_data (s : String) : String.mk s.data = s := by
  cases s
  rfl

lemma placeholderDocs_nodup (n : Nat) : (placeholderDocs n).Nodup := by
  match n with
  | 0 => decide
  | 1 => decide
  | 2 => decide
  | k + 3 =>
    have h : 3 - (k + 3) = 0 := by omega
    simp [placeholderDocs, h]

/-! ## Claims about the Text Normalizer -/

/-- C1 (code_bug evidence): the spec says every document surviving
`clean_comments` is padded "until its length reaches at least 12"
(`MIN_LENGTH`), but `pad_short_text` pads only once with `text[:needed]`,
which for a 2-character input yields `"ab ab"` of length 5 < 12: the
cleaned corpus for `["ab"]` contains a document shorter than `MIN_LENGTH`. -/
theorem C1_pad_short_text_below_min :
    clean_comments ["ab"] =
      ["ab ab", "placeholder document 1", "placeholder document 2"] ∧
    ("ab ab" ∈ clean_comments ["ab"] ∧ ("ab ab").length < MIN_LENGTH) := by
  refine ⟨by decide, by decide, by decide⟩

/-- C6: the corpus returned by `clean_comments` always has at least 3
documents; the surviving cleaned documents form the initial segment, and
what follows them is exactly the numbered placeholder block, whose entries
are pairwise distinct. -/
theorem C6_corpus_min_three (comments : List String) :
    3 ≤ (clean_comments comments).length ∧
    (clean_comments comments).take (comments.filterMap cleanOne).length
      = comments.filterMap cleanOne ∧
    (clean_comments comments).drop (comments.filterMap cleanOne).length
      = placeholderDocs (comments.filterMap cleanOne).length ∧
    ((clean_comments comments).drop (comments.filterMap cleanOne).length).Nodup := by
  refine ⟨?_, ?_, ?_, ?_⟩
  · show 3 ≤ (comments.filterMap cleanOne ++
      placeholderDocs (comments.filterMap cleanOne).length).length
    rw [List.length_append]
    unfold placeholderDocs
    rw [List.length_map, List.length_range]
    omega
  · exact List.take_left _ _
  · exact List.drop_left _ _
  · rw [show (clean_comments comments).drop (comments.filterMap cleanOne).length
        = placeholderDocs (comments.filterMap cleanOne).length from List.drop_left _ _]
    exact placeholderDocs_nodup _

/-- C10: a document with no ASCII control characters, no leading or
trailing (Python) whitespace, and length within `[MIN_LENGTH, MAX_LENGTH]`
passes through the whole normalization chain unchanged. -/
theorem C10_normalization_idempotent (s : String)
    (hctrl : ∀ c ∈ s.data, 31 < c.toNat ∧ c.toNat ≠ 127)
    (hstrip : pyStrip s = s)
    (hmin : MIN_LENGTH ≤ s.length) (hmax : s.length ≤ MAX_LENGTH) :
    truncate_long_text (pad_short_text (normalize_text s)) = s := by
  have hrc : replaceControls s = s := by
    unfold replaceControls
    have hmap : s.data.map
        (fun c => if c.toNat ≤ 31 || c.toNat == 127 then ' ' else c) = s.data := by
      conv_rhs => rw [← List.map_id s.data]
      refine List.map_congr_left (fun c hc => ?_)
      have h1 := (hctrl c hc).1
      have h2 := (hctrl c hc).2
      simp only [id]
      rw [if_neg]
      simp only [Bool.or_eq_true, decide_eq_true_eq, beq_iff_eq]
      omega
    rw [hmap, string_mk_data]
  have hnorm : normalize_text s = s := by
    unfold normalize_text
    rw [hrc, hstrip]
  rw [hnorm]
  unfold pad_short_text
  rw [if_pos hmin]
  unfold truncate_long_text
  rw [if_pos hmax]

/-- Closed witness for C10 at the 12-character document `"hello, world"`. -/
theorem C10_normalization_idempotent_witness :
    truncate_long_text (pad_short_text (normalize_text "hello, world")) = "hello, world" :=
  C10_normalization_idempotent "hello, world" (by decide) (by decide)
    (by decide) (by decide)

/-! ## Claims about the Representation Enhancer and Summary Generator -/

/-- C4: the enhancer is total (never raises, by construction of this
model), reports one of the three strategy names; when the remote tier's
`update_topics` fails the reported name is never `"OpenAI"`; and when both
fallible tiers fail the caller's snapshot is returned unchanged with the
baseline name. -/
theorem C4_enhancer_fallback (o : Oracle) (m : Model) (cs : List String)
    (key : String) (g : Option String) :
    ((update_topics_with_openai o m cs key g).2.1 = "OpenAI" ∨
     (update_topics_with_openai o m cs key g).2.1 = "Hugging Face (KeyBERT)" ∨
     (update_topics_with_openai o m cs key g).2.1 = "Basic BERTopic (no enhancement)") ∧
    (o.openaiUpdate m (clean_comments cs) = none →
      (update_topics_with_openai o m cs key g).2.1 ≠ "OpenAI") ∧
    (o.openaiUpdate m (clean_comments cs) = none →
      o.hfUpdate m (clean_comments cs) = none →
      (update_topics_with_openai o m cs key g).1 = m ∧
      (update_topics_with_openai o m cs key g).2.1 = "Basic BERTopic (no enhancement)") := by
  unfold update_topics_with_openai update_topics_with_huggingface
  cases hoa : o.openaiUpdate m (clean_comments cs) with
  | some updated => simp [hoa]
  | none =>
    cases hhf : o.hfUpdate m (clean_comments cs) with
    | some updated => simp [hoa, hhf]
    | none => simp [hoa, hhf]

/-- Closed witness for C4: with both tiers failing, the caller's snapshot
comes back untouched under the baseline strategy name. -/
theorem C4_enhancer_fallback_witness :
    (update_topics_with_openai oFail mEx ["a comment"] "sk-w4" none).1 = mEx ∧
    (update_topics_with_openai oFail mEx ["a comment"] "sk-w4" none).2.1 =
      "Basic BERTopic (no enhancement)" :=
  (C4_enhancer_fallback oFail mEx ["a comment"] "sk-w4" none).2.2 rfl rfl

/-- C9: the summary generator returns `none` (not an error) when the
credential is absent or empty, returns `none` when the chat call fails, and
its output depends only on the first five entries of the ranked topic
list. -/
theorem C9_summary_contract (chat : String → Option String)
    (topics : List TopicEntry) (key : Option String) (title : String) :
    (truthyStr key = false →
      generate_overall_summary chat topics key title = none) ∧
    (chat (summaryPrompt title
        (String.intercalate "\n" ((topics.take 5).map fmtTopic))) = none →
      generate_overall_summary chat topics key title = none) ∧
    (∀ topics2 : List TopicEntry, topics.take 5 = topics2.take 5 →
      generate_overall_summary chat topics key title =
        generate_overall_summary chat topics2 key title) := by
  refine ⟨fun hf => by simp [generate_overall_summary, hf], fun hc => ?_, fun t2 ht => ?_⟩
  · unfold generate_overall_summary
    cases hk : truthyStr key with
    | false => simp
    | true =>
      simp only [hk]
      rw [if_neg (fun h => Bool.noConfusion h), hc]
  · unfold generate_overall_summary
    rw [ht]

/-- Closed witness for C9: a failing chat service yields no summary even
with a credential present. -/
theorem C9_summary_contract_witness :
    generate_overall_summary (fun _ => none) [] (some "sk-w9") "Title" = none :=
  (C9_summary_contract (fun _ => none) [] (some "sk-w9") "Title").2.1 rfl

/-! ## Claim about request rejection -/

/-- C8: a request whose `comments` field is missing or the empty list is
answered with an immediate 400 error payload; no stream (and hence no
progress event) is ever created for it. -/
theorem C8_empty_comments_rejected (o : Oracle) (g : Option String)
    (d : RequestData) (h : d.comments = none ∨ d.comments = some []) :
    analyze_reddit_post o g (some d) =
      .immediate 400 (.obj [("status", .str "error"),
                            ("error", .str "No comments to analyze")]) := by
  rcases h with h | h <;> simp [analyze_reddit_post, h]

/-- Closed witness for C8 at the empty `comments` list. -/
theorem C8_empty_comments_rejected_witness :
    analyze_reddit_post oFail none (some ⟨some [], some "sk-w8", none⟩) =
      .immediate 400 (.obj [("status", .str "error"),
                            ("error", .str "No comments to analyze")]) :=
  C8_empty_comments_rejected oFail none ⟨some [], some "sk-w8", none⟩ (Or.inr rfl)

/-! ## Event-shape lemmas -/

lemma progressOf_spu (m : String) (n : Int) :
    progressOf (send_progress_update m (some n)) = some n := rfl

lemma progressOf_error (msg tb : String) : progressOf (errorEvent msg tb) = none := rfl

lemma progressOf_result (ts : List TopicEntry) (mu : String) (s : Option String)
    (n : Nat) : progressOf (resultJVal ts mu s n) = none := rfl

lemma statusOf_spu (m : String) (p : Option Int) :
    statusOf (send_progress_update m p) = some "progress" := rfl

lemma statusOf_error (msg tb : String) : statusOf (errorEvent msg tb) = some "error" := rfl

lemma statusOf_result (ts : List TopicEntry) (mu : String) (s : Option String)
    (n : Nat) : statusOf (resultJVal ts mu s n) = some "complete" := rfl

lemma isTerminalE_spu (m : String) (p : Option Int) :
    isTerminalE (send_progress_update m p) = false := rfl

lemma isTerminalE_error (msg tb : String) : isTerminalE (errorEvent msg tb) = true := rfl

lemma isTerminalE_result (ts : List TopicEntry) (mu : String) (s : Option String)
    (n : Nat) : isTerminalE (resultJVal ts mu s n) = true := rfl

lemma finishRun_stream (o : Oracle) (comments : List String) (key : Option String)
    (title : String) (model1 : Model) (mu : String) (g1 : Option String)
    (ft : List Int) (m1 m2 m3 m4 m5 : String) :
    List.Chain' (· ≤ ·) (progressVals (finishRun o comments key title
      [send_progress_update m1 (some 10), send_progress_update m2 (some 30),
       send_progress_update m3 (some 70), send_progress_update m4 (some 80),
       send_progress_update m5 (some 85)] model1 mu g1 ft).events) ∧
    oneTerminalAtEnd (finishRun o comments key title
      [send_progress_update m1 (some 10), send_progress_update m2 (some 30),
       send_progress_update m3 (some 70), send_progress_update m4 (some 80),
       send_progress_update m5 (some 85)] model1 mu g1 ft).events = true := by
  unfold finishRun
  cases hti : model1.topicInfo with
  | error msg =>
    refine ⟨?_, ?_⟩ <;>
      simp [hti, progressVals, List.filterMap_cons, progressOf_spu, progressOf_error,
        oneTerminalAtEnd, isTerminalE_spu, isTerminalE_error]
  | ok rows =>
    cases hk : truthyStr key with
    | false =>
      refine ⟨?_, ?_⟩ <;>
        simp [hti, hk, progressVals, List.filterMap_cons, progressOf_spu,
          progressOf_result, oneTerminalAtEnd, isTerminalE_spu, isTerminalE_result]
    | true =>
      refine ⟨?_, ?_⟩ <;>
        simp [hti, hk, progressVals, List.filterMap_cons, progressOf_spu,
          progressOf_result, oneTerminalAtEnd, isTerminalE_spu, isTerminalE_result]

/-! ## Claim about the Progress/Result Stream -/

/-- C5: every run of the stream generator yields progress events with
monotonically non-decreasing percentages, and its event sequence ends in
exactly one terminal (`complete` or `error`) block with no event after
it. -/
theorem C5_stream_shape (o : Oracle) (comments : List String) (key : Option String)
    (title : String) (g : Option String) :
    List.Chain' (· ≤ ·) (progressVals (generateAnalysis o comments key title g).events) ∧
    oneTerminalAtEnd (generateAnalysis o comments key title g).events = true := by
  unfold generateAnalysis
  cases hcm : o.createModel with
  | error msg =>
    refine ⟨?_, ?_⟩ <;>
      simp [progressVals, List.filterMap_cons, progressOf_spu, progressOf_error,
        oneTerminalAtEnd, isTerminalE_spu, isTerminalE_error]
  | ok model0 =>
    cases henc : o.encode comments with
    | error msg =>
      refine ⟨?_, ?_⟩ <;>
        simp [henc, progressVals, List.filterMap_cons, progressOf_spu, progressOf_error,
          oneTerminalAtEnd, isTerminalE_spu, isTerminalE_error]
    | ok emb =>
      cases hfit : o.fitTransform comments emb with
      | error msg =>
        refine ⟨?_, ?_⟩ <;>
          simp [hfit, progressVals, List.filterMap_cons, progressOf_spu, progressOf_error,
            oneTerminalAtEnd, isTerminalE_spu, isTerminalE_error]
      | ok fitTopics =>
        simp only [hfit]
        cases hk : truthyStr key with
        | false =>
          simp only [hk, Bool.false_eq_true, if_false, List.singleton_append,
            List.cons_append, List.nil_append]
          exact finishRun_stream o comments key title _ _ g fitTopics _ _ _ _ _
        | true =>
          simp only [hk, if_true, List.singleton_append, List.cons_append,
            List.nil_append]
          exact finishRun_stream o comments key title _ _ _ fitTopics _ _ _ _ _

lemma topicEntryJVal_keys (t : TopicEntry) :
    objKeysOf (topicEntryJVal t) = ["id", "label", "words", "percentage"] := rfl

lemma hf_strategy_mem (o : Oracle) (m : Model) (cs : List String) :
    (update_topics_with_huggingface o m cs).2 = "Hugging Face (KeyBERT)" ∨
    (update_topics_with_huggingface o m cs).2 = "Basic BERTopic (no enhancement)" := by
  unfold update_topics_with_huggingface
  cases h : o.hfUpdate m cs <;> simp [h]

lemma openai_strategy_mem (o : Oracle) (m : Model) (cs : List String) (k : String)
    (g : Option String) :
    (update_topics_with_openai o m cs k g).2.1 = "OpenAI" ∨
    (update_topics_with_openai o m cs k g).2.1 = "Hugging Face (KeyBERT)" ∨
    (update_topics_with_openai o m cs k g).2.1 = "Basic BERTopic (no enhancement)" := by
  unfold update_topics_with_openai
  cases h : o.openaiUpdate m (clean_comments cs) with
  | some u => simp [h]
  | none =>
    simp only [h]
    exact Or.inr (hf_strategy_mem o m (clean_comments cs))

lemma update_openai_glob (o : Oracle) (m : Model) (cs : List String) (k : String)
    (g : Option String) : (update_topics_with_openai o m cs k g).2.2 = some k := by
  unfold update_topics_with_openai
  cases h : o.openaiUpdate m (clean_comments cs) <;> simp [h]

lemma update_openai_key_irrel (o : Oracle) (m : Model) (cs : List String)
    (k1 k2 : String) (g g' : Option String) :
    (update_topics_with_openai o m cs k1 g).1 = (update_topics_with_openai o m cs k2 g').1 ∧
    (update_topics_with_openai o m cs k1 g).2.1 =
      (update_topics_with_openai o m cs k2 g').2.1 := by
  unfold update_topics_with_openai
  cases h : o.openaiUpdate m (clean_comments cs) <;> simp [h]

lemma finishRun_docs (o : Oracle) (comments : List String) (key : Option String)
    (title : String) (e5 : List JVal) (model1 : Model) (mu : String)
    (g1 : Option String) (ft : List Int) :
    (finishRun o comments key title e5 model1 mu g1 ft).encodedDocs = some comments ∧
    (finishRun o comments key title e5 model1 mu g1 ft).fitDocs = some comments ∧
    (finishRun o comments key title e5 model1 mu g1 ft).finalGlob = g1 := by
  unfold finishRun
  cases hti : model1.topicInfo with
  | error msg => simp [hti]
  | ok rows =>
    cases hk : truthyStr key <;> simp [hti, hk]

lemma summary_key_irrel (chat : String → Option String) (ts : List TopicEntry)
    (k1 k2 : String) (title : String) (h1 : k1 ≠ "") (h2 : k2 ≠ "") :
    generate_overall_summary chat ts (some k1) title =
      generate_overall_summary chat ts (some k2) title := by
  unfold generate_overall_summary
  have t1 : truthyStr (some k1) = true := by simp [truthyStr]; exact h1
  have t2 : truthyStr (some k2) = true := by simp [truthyStr]; exact h2
  rw [t1, t2]

lemma finishRun_key_obs (o : Oracle) (comments : List String) (title : String)
    (e5 : List JVal) (model1 : Model) (mu : String) (g1 g1' : Option String)
    (ft : List Int) (k1 k2 : String) (h1 : k1 ≠ "") (h2 : k2 ≠ "") :
    (finishRun o comments (some k1) title e5 model1 mu g1 ft).events
      = (finishRun o comments (some k2) title e5 model1 mu g1' ft).events ∧
    (finishRun o comments (some k1) title e5 model1 mu g1 ft).logs
      = (finishRun o comments (some k2) title e5 model1 mu g1' ft).logs := by
  have t1 : truthyStr (some k1) = true := by simp [truthyStr]; exact h1
  have t2 : truthyStr (some k2) = true := by simp [truthyStr]; exact h2
  unfold finishRun
  cases hti : model1.topicInfo with
  | error msg => simp [hti]
  | ok rows =>
    simp only [hti, t1, t2, if_true]
    rw [summary_key_irrel o.chat _ k1 k2 title h1 h2]
    simp [summaryLog, t1, t2]

/-! ## Claims about pipeline data flow -/

/-- C2 (counterexample): with input `["ab"]` the documents handed to
`embedding_model.encode` and `topic_model.fit_transform` are the raw
comments `["ab"]`, which differ from the normalized corpus
`clean_comments ["ab"]` — so normalization does not precede embedding. -/
theorem C2_counterexample :
    (generateAnalysis oFail ["ab"] none "Title" none).encodedDocs = some ["ab"] ∧
    (generateAnalysis oFail ["ab"] none "Title" none).fitDocs = some ["ab"] ∧
    clean_comments ["ab"] ≠ ["ab"] :=
  ⟨rfl, rfl, by decide⟩

/-- C2 (amended): the embedder and the topic-model fit receive exactly the
raw request comments whenever they are reached at all, and `clean_comments`
is applied only inside the remote-LLM enhancement tier — that tier reports
`"OpenAI"` precisely when its `update_topics` call on the re-cleaned corpus
succeeds. -/
theorem C2_raw_docs_to_embedder (o : Oracle) (comments : List String)
    (key : Option String) (title : String) (g : Option String) :
    ((generateAnalysis o comments key title g).encodedDocs = none ∨
     (generateAnalysis o comments key title g).encodedDocs = some comments) ∧
    ((generateAnalysis o comments key title g).fitDocs = none ∨
     (generateAnalysis o comments key title g).fitDocs = some comments) ∧
    (∀ m : Model, ∀ cs : List String, ∀ k : String, ∀ g2 : Option String,
      (update_topics_with_openai o m cs k g2).2.1 = "OpenAI" ↔
        (o.openaiUpdate m (clean_comments cs)).isSome = true) := by
  refine ⟨?_, ?_, ?_⟩
  · unfold generateAnalysis
    cases hcm : o.createModel with
    | error msg => simp
    | ok model0 =>
      cases henc : o.encode comments with
      | error msg => simp [henc]
      | ok emb =>
        cases hfit : o.fitTransform comments emb with
        | error msg => simp [hfit]
        | ok ft =>
          simp only [hfit]
          cases hk : truthyStr key <;>
            simp [hk, (finishRun_docs o comments key title _ _ _ _ _).1]
  · unfold generateAnalysis
    cases hcm : o.createModel with
    | error msg => simp
    | ok model0 =>
      cases henc : o.encode comments with
      | error msg => simp [henc]
      | ok emb =>
        cases hfit : o.fitTransform comments emb with
        | error msg => simp [hfit]
        | ok ft =>
          simp only [hfit]
          cases hk : truthyStr key <;>
            simp [hk, (finishRun_docs o comments key title _ _ _ _ _).2.1]
  · intro m cs k g2
    unfold update_topics_with_openai
    cases h : o.openaiUpdate m (clean_comments cs) with
    | some u => simp [h]
    | none =>
      simp only [h, Option.isSome_none]
      rcases hf_strategy_mem o m (clean_comments cs) with hh | hh <;> simp [hh]

lemma finishRun_complete (o : Oracle) (comments : List String) (key : Option String)
    (title : String) (e5 : List JVal) (model1 : Model) (mu : String)
    (g1 : Option String) (ft : List Int)
    (hmu : mu = "OpenAI" ∨ mu = "Hugging Face (KeyBERT)" ∨
      mu = "Basic BERTopic (no enhancement)")
    (he5 : ∀ e ∈ e5, statusOf e = some "progress") :
    ∀ e ∈ (finishRun o comments key title e5 model1 mu g1 ft).events,
      statusOf e = some "complete" → completePayloadOK comments.length e := by
  intro e he hs
  unfold finishRun at he
  cases hti : model1.topicInfo with
  | error msg =>
    simp only [hti] at he
    rcases List.mem_append.mp he with h | h
    · rcases List.mem_append.mp h with h2 | h2
      · rw [he5 e h2] at hs
        exact absurd hs (by decide)
      · rcases List.mem_singleton.mp h2 with rfl
        rw [statusOf_spu] at hs
        exact absurd hs (by decide)
    · rcases List.mem_singleton.mp h with rfl
      rw [statusOf_error] at hs
      exact absurd hs (by decide)
  | ok rows =>
    cases hk : truthyStr key with
    | true =>
      simp only [hti, hk, if_true] at he
      rcases List.mem_append.mp he with h | h
      · rcases List.mem_append.mp h with h2 | h2
        · rcases List.mem_append.mp h2 with h3 | h3
          · rw [he5 e h3] at hs
            exact absurd hs (by decide)
          · rcases List.mem_singleton.mp h3 with rfl
            rw [statusOf_spu] at hs
            exact absurd hs (by decide)
        · rcases List.mem_singleton.mp h2 with rfl
          rw [statusOf_spu] at hs
          exact absurd hs (by decide)
      · rcases List.mem_cons.mp h with rfl | h2
        · rw [statusOf_spu] at hs
          exact absurd hs (by decide)
        · rcases List.mem_singleton.mp h2 with rfl
          exact ⟨rfl, _, mu, _, rfl, hmu, fun tj htj => by
            rcases List.mem_map.mp htj with ⟨t, _, rfl⟩
            exact topicEntryJVal_keys t⟩
    | false =>
      simp only [hti, hk, Bool.false_eq_true, if_false] at he
      rcases List.mem_append.mp he with h | h
      · rcases List.mem_append.mp h with h2 | h2
        · rw [he5 e h2] at hs
          exact absurd hs (by decide)
        · rcases List.mem_singleton.mp h2 with rfl
          rw [statusOf_spu] at hs
          exact absurd hs (by decide)
      · rcases List.mem_cons.mp h with rfl | h2
        · rw [statusOf_spu] at hs
          exact absurd hs (by decide)
        · rcases List.mem_singleton.mp h2 with rfl
          exact ⟨rfl, _, mu, none, rfl, hmu, fun tj htj => by
            rcases List.mem_map.mp htj with ⟨t, _, rfl⟩
            exact topicEntryJVal_keys t⟩

/-- C3 (amended): every `complete`-status block of any run carries exactly
the keys `status, topics, model_used, summary, total_comments` — no
`num_topics`, `num_comments`, `openai_enhanced` or `post_title` — its
`total_comments` is the raw comment count, its strategy name is one of the
three tiers, and each topic entry carries exactly `id, label, words,
percentage`. -/
theorem C3_payload_fields (o : Oracle) (comments : List String) (key : Option String)
    (title : String) (g : Option String) :
    ∀ e ∈ (generateAnalysis o comments key title g).events,
      statusOf e = some "complete" → completePayloadOK comments.length e := by
  intro e he hs
  unfold generateAnalysis at he
  cases hcm : o.createModel with
  | error msg =>
    simp only [hcm] at he
    rcases List.mem_append.mp he with h | h
    · rcases List.mem_singleton.mp h with rfl
      rw [statusOf_spu] at hs
      exact absurd hs (by decide)
    · rcases List.mem_singleton.mp h with rfl
      rw [statusOf_error] at hs
      exact absurd hs (by decide)
  | ok model0 =>
    cases henc : o.encode comments with
    | error msg =>
      simp only [hcm, henc] at he
      rcases List.mem_append.mp he with h | h
      · rcases List.mem_append.mp h with h2 | h2
        · rcases List.mem_singleton.mp h2 with rfl
          rw [statusOf_spu] at hs
          exact absurd hs (by decide)
        · rcases List.mem_singleton.mp h2 with rfl
          rw [statusOf_spu] at hs
          exact absurd hs (by decide)
      · rcases List.mem_singleton.mp h with rfl
        rw [statusOf_error] at hs
        exact absurd hs (by decide)
    | ok emb =>
      cases hfit : o.fitTransform comments emb with
      | error msg =>
        simp only [hcm, henc, hfit] at he
        rcases List.mem_append.mp he with h | h
        · rcases List.mem_append.mp h with h2 | h2
          · rcases List.mem_append.mp h2 with h3 | h3
            · rcases List.mem_singleton.mp h3 with rfl
              rw [statusOf_spu] at hs
              exact absurd hs (by decide)
            · rcases List.mem_singleton.mp h3 with rfl
              rw [statusOf_spu] at hs
              exact absurd hs (by decide)
          · rcases List.mem_singleton.mp h2 with rfl
            rw [statusOf_spu] at hs
            exact absurd hs (by decide)
        · rcases List.mem_singleton.mp h with rfl
          rw [statusOf_error] at hs
          exact absurd hs (by decide)
      | ok ft =>
        simp only [hcm, henc, hfit] at he
        have hprog : ∀ m1 m2 m3 m4 m5 : String,
            ∀ ev ∈ [send_progress_update m1 (some 10), send_progress_update m2 (some 30),
              send_progress_update m3 (some 70), send_progress_update m4 (some 80),
              send_progress_update m5 (some 85)], statusOf ev = some "progress" := by
          intro m1 m2 m3 m4 m5 ev hev
          simp only [List.mem_cons, List.not_mem_nil, or_false] at hev
          rcases hev with rfl | rfl | rfl | rfl | rfl <;> exact statusOf_spu _ _
        cases hk : truthyStr key with
        | true =>
          rw [hk] at he
          simp only [if_true, List.singleton_append, List.cons_append,
            List.nil_append] at he
          exact finishRun_complete o comments key title _ _ _ _ ft
            (openai_strategy_mem o model0 comments (key.getD "") g)
            (hprog _ _ _ _ _) e he hs
        | false =>
          rw [hk] at he
          simp only [Bool.false_eq_true, if_false, List.singleton_append,
            List.cons_append, List.nil_append] at he
          exact finishRun_complete o comments key title _ _ _ _ ft
            (Or.inr (hf_strategy_mem o model0 comments))
            (hprog _ _ _ _ _) e he hs

/-- C3 (counterexample): a concrete successful run whose terminal block has
exactly the keys `status, topics, model_used, summary, total_comments` —
none of the claimed keys `num_topics`, `num_comments`, `openai_enhanced`,
`post_title` is present. -/
theorem C3_counterexample :
    ((generateAnalysis oRun ["first comment here"] none "Title" none).events.getLast?).map
        objKeysOf
      = some ["status", "topics", "model_used", "summary", "total_comments"] ∧
    "num_topics" ∉ ["status", "topics", "model_used", "summary", "total_comments"] ∧
    "num_comments" ∉ ["status", "topics", "model_used", "summary", "total_comments"] ∧
    "openai_enhanced" ∉ ["status", "topics", "model_used", "summary", "total_comments"] ∧
    "post_title" ∉ ["status", "topics", "model_used", "summary", "total_comments"] :=
  ⟨by decide, by decide, by decide, by decide, by decide⟩

/-- Closed witness for C3 at the terminal block of a concrete run. -/
theorem C3_payload_fields_witness :
    completePayloadOK 1 (resultJVal [⟨0, "alpha, beta", ["alpha", "beta"], 100⟩]
      "Basic BERTopic (no enhancement)" none 1) := by
  have hev : (generateAnalysis oRun ["first comment here"] none "Title" none).events
      = [send_progress_update "Loading models..." (some 10),
         send_progress_update "Embedding comments..." (some 30),
         send_progress_update "Analyzing topics..." (some 70),
         send_progress_update "Processing topic information..." (some 80),
         send_progress_update "Enhancing with Hugging Face..." (some 85),
         send_progress_update "Finalizing results..." (some 90),
         send_progress_update "Complete" (some 100),
         resultJVal [⟨0, "alpha, beta", ["alpha", "beta"], 100⟩]
           "Basic BERTopic (no enhancement)" none 1] := rfl
  have hmem : resultJVal [⟨0, "alpha, beta", ["alpha", "beta"], 100⟩]
      "Basic BERTopic (no enhancement)" none 1
      ∈ (generateAnalysis oRun ["first comment here"] none "Title" none).events := by
    rw [hev]
    exact List.mem_cons_of_mem _ (List.mem_cons_of_mem _ (List.mem_cons_of_mem _
      (List.mem_cons_of_mem _ (List.mem_cons_of_mem _ (List.mem_cons_of_mem _
        (List.mem_cons_of_mem _ (List.mem_cons_self _ _)))))))
  exact C3_payload_fields oRun ["first comment here"] none "Title" none _ hmem rfl

/-! ## Claims about the credential -/

/-- C7 (counterexample): the credential is retained beyond the request in
the process-global `openai.api_key` slot set by
`StableOpenAIRepresentation.__init__` — two runs differing only in the
credential leave observably different retained state. -/
theorem C7_retention_counterexample :
    (generateAnalysis oRun ["first comment here"] (some "sk-alpha") "T" none).finalGlob
      = some "sk-alpha" ∧
    (generateAnalysis oRun ["first comment here"] (some "sk-beta") "T" none).finalGlob
      = some "sk-beta" ∧
    (generateAnalysis oRun ["first comment here"] (some "sk-alpha") "T" none).finalGlob
      ≠ (generateAnalysis oRun ["first comment here"] (some "sk-beta") "T" none).finalGlob :=
  ⟨rfl, rfl, by decide⟩

/-- C7 (amended): the credential value never influences the emitted stream
events or the credential-related log lines (only its presence does), but
whenever the run reaches the enhancement stage the credential is retained
in the process-global `openai.api_key` after the run. -/
theorem C7_credential_flow (o : Oracle) (comments : List String) (k1 k2 : String)
    (title : String) (g : Option String) (h1 : k1 ≠ "") (h2 : k2 ≠ "") :
    (generateAnalysis o comments (some k1) title g).events
      = (generateAnalysis o comments (some k2) title g).events ∧
    (generateAnalysis o comments (some k1) title g).logs
      = (generateAnalysis o comments (some k2) title g).logs ∧
    (∀ m : Model, ∀ em : Nat, ∀ ft : List Int,
      o.createModel = .ok m → o.encode comments = .ok em →
      o.fitTransform comments em = .ok ft →
      (generateAnalysis o comments (some k1) title g).finalGlob = some k1) := by
  have t1 : truthyStr (some k1) = true := by simp [truthyStr]; exact h1
  have t2 : truthyStr (some k2) = true := by simp [truthyStr]; exact h2
  refine ⟨?_, ?_, ?_⟩
  · unfold generateAnalysis
    cases hcm : o.createModel with
    | error msg => rfl
    | ok model0 =>
      cases henc : o.encode comments with
      | error msg => rfl
      | ok emb =>
        cases hfit : o.fitTransform comments emb with
        | error msg => simp [hfit]
        | ok ft =>
          simp only [hfit, t1, t2, if_true]
          rw [(update_openai_key_irrel o model0 comments ((some k1).getD "")
              ((some k2).getD "") g g).1,
            (update_openai_key_irrel o model0 comments ((some k1).getD "")
              ((some k2).getD "") g g).2]
          exact (finishRun_key_obs o comments title _ _ _ _ _ ft k1 k2 h1 h2).1
  · unfold generateAnalysis
    cases hcm : o.createModel with
    | error msg => rfl
    | ok model0 =>
      cases henc : o.encode comments with
      | error msg => rfl
      | ok emb =>
        cases hfit : o.fitTransform comments emb with
        | error msg => simp [hfit]
        | ok ft =>
          simp only [hfit, t1, t2, if_true]
          rw [(update_openai_key_irrel o model0 comments ((some k1).getD "")
              ((some k2).getD "") g g).1,
            (update_openai_key_irrel o model0 comments ((some k1).getD "")
              ((some k2).getD "") g g).2]
          exact (finishRun_key_obs o comments title _ _ _ _ _ ft k1 k2 h1 h2).2
  · intro m em ft hcm henc hfit
    unfold generateAnalysis
    simp only [hcm, henc, hfit, t1, if_true]
    rw [(finishRun_docs o comments (some k1) title _ _ _ _ _).2.2]
    exact update_openai_glob o m comments _ g

/-- Closed witness for C7 at two concrete keys and a successful run. -/
theorem C7_credential_flow_witness :
    (generateAnalysis oRun ["first comment here"] (some "sk-w7a") "T" none).events
      = (generateAnalysis oRun ["first comment here"] (some "sk-w7b") "T" none).events ∧
    (generateAnalysis oRun ["first comment here"] (some "sk-w7a") "T" none).logs
      = (generateAnalysis oRun ["first comment here"] (some "sk-w7b") "T" none).logs ∧
    (generateAnalysis oRun ["first comment here"] (some "sk-w7a") "T" none).finalGlob
      = some "sk-w7a" := by
  obtain ⟨he, hl, hg⟩ := C7_credential_flow oRun ["first comment here"] "sk-w7a" "sk-w7b"
    "T" none (by decide) (by decide)
  exact ⟨he, hl, hg mTopics 0 [0, 0, 0] rfl rfl rfl⟩

end RedditTopic
